import Mathlib

/-!
Shallow embedding of the Hiya Voice Concierge turn pipeline
(`voice_personal_assistant.py`, `run_voice_agent.py`,
`notification_services.py`, and the calendar-sync parts of `database.py`).

External effects (the OpenAI transcription/classification calls, the
Google Calendar / Pushover / SendGrid remote calls, text-to-speech) are
modelled as oracle fields of an environment record: each field holds the
outcome the corresponding remote call would produce, `Except` capturing
a raised exception.  Python dictionaries of classified parameters become
association lists of `PyVal`; Python truthiness, `int()` / `float()`
coercion and `str.strip` are modelled explicitly below.
-/

instance {ε α : Type _} [DecidableEq ε] [DecidableEq α] : DecidableEq (Except ε α) := fun x y =>
  match x, y with
  | .ok a, .ok b =>
    if h : a = b then .isTrue (by subst h; rfl) else .isFalse (by intro hh; cases hh; exact h rfl)
  | .error a, .error b =>
    if h : a = b then .isTrue (by subst h; rfl) else .isFalse (by intro hh; cases hh; exact h rfl)
  | .ok _, .error _ => .isFalse (by intro hh; cases hh)
  | .error _, .ok _ => .isFalse (by intro hh; cases hh)

/-- A Python value appearing in the classifier's `parameters` mapping.
The claims under study only exercise string and integer parameters. -/
inductive PyVal where
  | vstr : String → PyVal
  | vint : Int → PyVal
  deriving DecidableEq, Repr

/-- Python truthiness of a value: a string is truthy iff non-empty, an
integer iff non-zero. -/
def truthy : PyVal → Bool
  | .vstr s => !s.isEmpty
  | .vint n => n != 0

/-- Truthiness of a `dict.get` result (`None` is falsy). -/
def otruthy : Option PyVal → Bool
  | none => false
  | some v => truthy v

/-- Python `a or b` on two `dict.get` results. -/
def pyOr (a b : Option PyVal) : Option PyVal :=
  match a with
  | some v => if truthy v then some v else b
  | none => b

/-- `str(v)`: the string rendering used when a parameter value reaches a
string position (f-string interpolation). -/
def pyStr : PyVal → String
  | .vstr s => s
  | .vint n => toString n

/-- `parameters.get(k) or "default"` for a value flowing into a string
position. -/
def pyOrDefault (a : Option PyVal) (d : String) : String :=
  match a with
  | some v => if truthy v then pyStr v else d
  | none => d

/-- The classifier's `parameters` mapping (`Dict[str, Any]`). -/
abbrev Params := List (String × PyVal)

/-- `parameters.get(k)`. -/
def Params.get (p : Params) (k : String) : Option PyVal :=
  p.lookup k

/-- Digits of a decimal literal, all characters must be digits. -/
def digitsVal : List Char → Option Nat
  | [] => none
  | cs => cs.foldl (fun acc c => match acc with
      | none => none
      | some n => if c.isDigit then some (n * 10 + (c.toNat - 48)) else none)
      (some 0)

/-- `int(s)` on a string: optional surrounding whitespace, optional sign,
then decimal digits (the underscore-grouping extension is not modelled). -/
def parsePyInt? (s : String) : Option Int :=
  match (s.toList.dropWhile Char.isWhitespace).reverse.dropWhile Char.isWhitespace |>.reverse with
  | '-' :: cs => (digitsVal cs).map fun n => -(n : Int)
  | '+' :: cs => (digitsVal cs).map fun n => (n : Int)
  | cs => (digitsVal cs).map fun n => (n : Int)

/-- Python `int(v)`: identity on integers, decimal parse on strings,
`ValueError` otherwise. -/
def pyToInt : PyVal → Except String Int
  | .vint n => .ok n
  | .vstr s =>
    match parsePyInt? s with
    | some n => .ok n
    | none => .error ("invalid literal for int() with base 10: '" ++ s ++ "'")

/-- `float(s)` on a string: optional sign, digits with an optional
fractional part (exponents / inf / nan are not modelled). -/
def parsePyFloat? (s : String) : Option Rat :=
  let t := (s.toList.dropWhile Char.isWhitespace).reverse.dropWhile Char.isWhitespace |>.reverse
  let core := fun (neg : Bool) (cs : List Char) =>
    let sgn : Int := if neg then -1 else 1
    match cs.span Char.isDigit with
    | (intPart, []) => (digitsVal intPart).map fun n => mkRat (sgn * n) 1
    | (intPart, '.' :: frac) =>
      if intPart.isEmpty && frac.isEmpty then none
      else
        let ip := if intPart.isEmpty then some 0 else digitsVal intPart
        let fp := if frac.isEmpty then some 0 else digitsVal frac
        match ip, fp with
        | some i, some f => some (mkRat (sgn * (i * 10 ^ frac.length + f)) (10 ^ frac.length))
        | _, _ => none
    | _ => none
  match t with
  | '-' :: cs => core true cs
  | '+' :: cs => core false cs
  | cs => core false cs

/-- Python `float(v)`. -/
def pyfloat : PyVal → Except String Rat
  | .vint n => .ok (mkRat n 1)
  | .vstr s =>
    match parsePyFloat? s with
    | some q => .ok q
    | none => .error ("could not convert string to float: '" ++ s ++ "'")

/-- Substring test on character lists. -/
def containsSub : List Char → List Char → Bool
  | [], sub => sub.isEmpty
  | l@(_ :: tl), sub => sub.isPrefixOf l || containsSub tl sub

/-- Python `sub in s` substring test. -/
def strContains (s sub : String) : Bool :=
  containsSub s.toList sub.toList

/-- `str.strip()` (whitespace from both ends). -/
def pyStrip (s : String) : String :=
  String.mk ((s.toList.dropWhile Char.isWhitespace).reverse.dropWhile Char.isWhitespace |>.reverse)

/-- `value.replace("Z", "+00:00")` (single-character pattern, every
occurrence replaced). -/
def replaceZAux : List Char → List Char
  | [] => []
  | c :: cs =>
    if c = 'Z' then '+' :: '0' :: '0' :: ':' :: '0' :: '0' :: replaceZAux cs
    else c :: replaceZAux cs

/-- String form of `replaceZAux`. -/
def pyReplaceZ (s : String) : String :=
  String.mk (replaceZAux s.toList)

/-! ## datetime model (`datetime.fromisoformat` / `strftime`) -/

/-- The fields of a `datetime.datetime` that the formatting and syncing
code reads (the parsed UTC offset is range-checked but not stored, since
`strftime("%b %d at %I:%M %p")` never consults it; microseconds are
parsed and range-checked but likewise never displayed). -/
structure PyDateTime where
  year : Nat
  month : Nat
  day : Nat
  hour : Nat
  minute : Nat
  second : Nat
  deriving DecidableEq, Repr

/-- Reads exactly `n` decimal digits. -/
def readNDigits : Nat → Nat → List Char → Option (Nat × List Char)
  | 0, acc, cs => some (acc, cs)
  | n + 1, acc, c :: cs =>
    if c.isDigit then readNDigits n (acc * 10 + (c.toNat - 48)) cs else none
  | _ + 1, _, [] => none

/-- Consumes one expected character. -/
def expectChar (c : Char) : List Char → Option (List Char)
  | x :: xs => if x = c then some xs else none
  | [] => none

/-- Gregorian leap year. -/
def isLeap (y : Nat) : Bool :=
  y % 4 = 0 && (y % 100 != 0 || y % 400 = 0)

/-- Days in a month. -/
def daysInMonth (y m : Nat) : Nat :=
  if m = 2 then (if isLeap y then 29 else 28)
  else if m = 4 || m = 6 || m = 9 || m = 11 then 30
  else 31

/-- The exact-length fractional block of `parse_hh_mm_ss_ff`: the whole
remainder of the region must be 3 or 6 digits; the paired flag is the C
code's return value (true when the region
is followed by a timezone sign rather than the end of the string). -/
def parseFrac (fr : List Char) (afterEnd : Char) : Option (Nat × Bool) :=
  if fr.length = 3 then (digitsVal fr).map fun f => (f * 1000, afterEnd ≠ '\x00')
  else if fr.length = 6 then (digitsVal fr).map fun f => (f, afterEnd ≠ '\x00')
  else none

/-- `parse_hh_mm_ss_ff` of CPython 3.10's `_datetimemodule.c`, over the
region `r` (the characters before the timezone sign, or before the end
of the string).  `afterEnd` is the character the C code reads one past
the region: the timezone sign when one follows, `NUL` at the end of the
string (embedded `NUL` characters inside the value are not modelled).
Returns `(hour, minute, second, microsecond, sawMore)` where `sawMore`
mirrors the C return value 1 ("not the end of the string").  The C
loop's quirks are preserved: a `.` after any component switches to the
fractional block, a `:` after the seconds does too, and a single
trailing character after a component is consumed without inspection. -/
def parse_hh_mm_ss_ff (r : List Char) (afterEnd : Char) :
    Option (Nat × Nat × Nat × Nat × Bool) := do
  let (h, r1) ← readNDigits 2 0 r
  match r1 with
  | [] => some (h, 0, 0, 0, afterEnd ≠ '\x00')
  | [c] => some (h, 0, 0, 0, c ≠ '\x00')
  | c :: rest =>
    if c = ':' then do
      let (m, r2) ← readNDigits 2 0 rest
      match r2 with
      | [] => some (h, m, 0, 0, afterEnd ≠ '\x00')
      | [c2] => some (h, m, 0, 0, c2 ≠ '\x00')
      | c2 :: rest2 =>
        if c2 = ':' then do
          let (sec, r3) ← readNDigits 2 0 rest2
          match r3 with
          | [] => some (h, m, sec, 0, afterEnd ≠ '\x00')
          | [c3] => some (h, m, sec, 0, c3 ≠ '\x00')
          | c3 :: rest3 =>
            if c3 = ':' || c3 = '.' then do
              let (usec, more) ← parseFrac rest3 afterEnd
              some (h, m, sec, usec, more)
            else none
        else if c2 = '.' then do
          let (usec, more) ← parseFrac rest2 afterEnd
          some (h, m, 0, usec, more)
        else none
    else if c = '.' then do
      let (usec, more) ← parseFrac rest afterEnd
      some (h, 0, 0, usec, more)
    else none

/-- `parse_isoformat_time` of CPython 3.10: the time region runs up to
the first `+` or `-`; a timezone part must be 6, 9 or 16 characters
(`±HH:MM`, `±HH:MM:SS`, `±HH:MM:SS.ffffff`), its fields flow into a
`timedelta` with no per-field cap, and `timezone()` only requires the
total offset to be strictly less than 24 hours in magnitude.  The
microsecond and the offset are discarded after validation. -/
def parse_isoformat_time (t : List Char) : Option (Nat × Nat × Nat) := do
  let timestr := t.takeWhile fun c => !(c == '+' || c == '-')
  let tzpart := t.drop timestr.length
  match tzpart with
  | [] => do
    let (h, m, sec, _, more) ← parse_hh_mm_ss_ff timestr '\x00'
    if more then none else some (h, m, sec)
  | sign :: tzbody => do
    let (h, m, sec, _, _) ← parse_hh_mm_ss_ff timestr sign
    if tzpart.length = 6 || tzpart.length = 9 || tzpart.length = 16 then do
      let (th, tm, ts, _, more2) ← parse_hh_mm_ss_ff tzbody '\x00'
      if more2 then none
      else if th * 3600 + tm * 60 + ts < 86400 then some (h, m, sec)
      else none
    else none

/-- `datetime.fromisoformat` as implemented by CPython 3.10's C parser
(the `replace("Z", "+00:00")` at the call sites targets these pre-3.11
parsers): a fixed ten-character `YYYY-MM-DD` date, then optionally one
arbitrary separator character and a non-empty time component.  The
`datetime` constructor's range checks follow: `MINYEAR = 1` for the
year (four digits cap it at `MAXYEAR = 9999`), month 1..12, day within
the month, hour at most 23, minute and second at most 59.  `none`
models the raised `ValueError`. -/
def fromisoformat (s : String) : Option PyDateTime := do
  let cs := s.toList
  let (y, cs) ← readNDigits 4 0 cs
  let cs ← expectChar '-' cs
  let (mo, cs) ← readNDigits 2 0 cs
  let cs ← expectChar '-' cs
  let (d, cs) ← readNDigits 2 0 cs
  let (h, mi, sec) ← match cs with
    | [] => some (0, 0, 0)
    | _sep :: rest => parse_isoformat_time rest
  if 1 ≤ y && 1 ≤ mo && mo ≤ 12 && 1 ≤ d && d ≤ daysInMonth y mo
      && h ≤ 23 && mi ≤ 59 && sec ≤ 59 then
    some ⟨y, mo, d, h, mi, sec⟩
  else none

/-- C-locale `%b` month abbreviation. -/
def monthAbbrev : Nat → String
  | 1 => "Jan" | 2 => "Feb" | 3 => "Mar" | 4 => "Apr" | 5 => "May" | 6 => "Jun"
  | 7 => "Jul" | 8 => "Aug" | 9 => "Sep" | 10 => "Oct" | 11 => "Nov" | 12 => "Dec"
  | _ => ""

/-- Zero-padded two-digit rendering. -/
def two2 (n : Nat) : String :=
  (if n < 10 then "0" else "") ++ toString n

/-- `dt.strftime("%b %d at %I:%M %p")`. -/
def strftimeBdIMp (d : PyDateTime) : String :=
  let h12 := if d.hour % 12 = 0 then 12 else d.hour % 12
  let ampm := if d.hour < 12 then "AM" else "PM"
  monthAbbrev d.month ++ " " ++ two2 d.day ++ " at " ++ two2 h12 ++ ":" ++
    two2 d.minute ++ " " ++ ampm

/-! ## Raw Google-calendar events and calendar-summary formatting
(`VoicePersonalAssistant._format_datetime`, `_format_calendar_response`) -/

/-- A raw provider-shaped event mapping, restricted to the keys the
orchestrator reads (`id`, `summary`, `description`, `location`, and the
nested `start` / `end` mappings with their `dateTime` / `date` keys).
A field is `none` when the key is absent. -/
structure GEvent where
  id : Option String
  summary : Option String
  description : Option String
  startDateTime : Option String
  startDate : Option String
  endDateTime : Option String
  endDate : Option String
  location : Option String
  deriving DecidableEq, Repr

/-- Python `a or b` on two optional strings (empty strings are falsy). -/
def pyOrStr (a b : Option String) : Option String :=
  match a with
  | some s => if s.isEmpty then b else some s
  | none => b

/-- Truthiness of an optional string. -/
def strOTruthy : Option String → Bool
  | none => false
  | some s => !s.isEmpty

/-- `event.get("start", {}).get("dateTime") or event.get("start", {}).get("date")`. -/
def startRawOf (ev : GEvent) : Option String :=
  pyOrStr ev.startDateTime ev.startDate

/-- `event.get("end", {}).get("dateTime") or event.get("end", {}).get("date")`. -/
def endRawOf (ev : GEvent) : Option String :=
  pyOrStr ev.endDateTime ev.endDate

/-- `VoicePersonalAssistant._format_datetime`: falsy values render as the
fixed phrase, parsable values through `strftime`, and a `ValueError`
from `fromisoformat` returns the raw value unchanged. -/
def format_datetime (value : Option String) : String :=
  match value with
  | none => "an unspecified time"
  | some s =>
    if s.isEmpty then "an unspecified time"
    else
      match fromisoformat (pyReplaceZ s) with
      | some d => strftimeBdIMp d
      | none => s

/-- One summary line of the loop body in `_format_calendar_response`. -/
def eventLine (ev : GEvent) : String :=
  let start_display := format_datetime (startRawOf ev)
  let end_display := if strOTruthy (endRawOf ev) then format_datetime (endRawOf ev) else ""
  let entry := "- " ++ ev.summary.getD "Untitled event" ++ " on " ++ start_display
  let entry :=
    if !end_display.isEmpty && end_display != start_display then
      entry ++ " until " ++ end_display
    else entry
  if strOTruthy ev.location then entry ++ " at " ++ ev.location.getD "" else entry

/-- `VoicePersonalAssistant._format_calendar_response`. -/
def format_calendar_response (events : List GEvent) (keyword : Option PyVal) : String :=
  if events.isEmpty then "I didn\x27t find any upcoming events that match your request."
  else
    let keyword_text :=
      match keyword with
      | some v => if truthy v then " related to " ++ pyStr v else ""
      | none => ""
    let header := "Here are your next " ++ toString events.length ++ " events" ++ keyword_text ++ ":"
    String.intercalate "\n" (header :: events.map eventLine)

/-! ## Database rows and the calendar-sync upsert
(`database.CalendarEvent`, `VoicePersonalAssistant._sync_calendar_events`) -/

/-- A `calendar_events` table row (the columns `_sync_calendar_events`
touches). -/
structure CalendarEvent where
  user_id : Nat
  external_id : String
  title : String
  description : Option String
  start_time : PyDateTime
  end_time : Option PyDateTime
  deriving DecidableEq, Repr

/-- A `conversations` table row (the columns `_persist_conversation`
writes). -/
structure Conversation where
  user_id : Nat
  user_message : String
  ai_response : String
  intent : String
  confidence : Int
  deriving DecidableEq, Repr

/-- `VoicePersonalAssistant._parse_datetime`. -/
def parse_datetime (value : Option String) : Option PyDateTime :=
  match value with
  | none => none
  | some s => if s.isEmpty then none else fromisoformat (pyReplaceZ s)

/-- `if not external_id: continue` — the truthy external id of an event,
if any. -/
def eventExternalId (ev : GEvent) : Option String :=
  match ev.id with
  | some s => if s.isEmpty then none else some s
  | none => none

/-- The parsed start timestamp of an event (`start_dt`). -/
def startDtOf (ev : GEvent) : Option PyDateTime :=
  parse_datetime (startRawOf ev)

/-- `end_dt = self._parse_datetime(end) if end else None`. -/
def endDtOf (ev : GEvent) : Option PyDateTime :=
  if strOTruthy (endRawOf ev) then parse_datetime (endRawOf ev) else none

/-- The field updates applied to an existing row for `ev` (the
`if record:` branch of the upsert loop). -/
def applyEvent (ev : GEvent) (r : CalendarEvent) : CalendarEvent :=
  { r with
    title := ev.summary.getD r.title
    description := match ev.description with
      | some d => some d
      | none => r.description
    start_time := (startDtOf ev).getD r.start_time
    end_time := match endDtOf ev with
      | some e => some e
      | none => r.end_time }

/-- The freshly inserted row for `ev` (the `else: session.add(...)`
branch); `now` models `datetime.utcnow()`. -/
def newRow (u : Nat) (now : PyDateTime) (ev : GEvent) (eid : String) : CalendarEvent :=
  { user_id := u
    external_id := eid
    title := ev.summary.getD "Untitled event"
    description := ev.description
    start_time := (startDtOf ev).getD now
    end_time := endDtOf ev }

/-- Row matches the `filter_by(user_id=..., external_id=...)` criteria. -/
def rowKeyMatches (u : Nat) (eid : String) (r : CalendarEvent) : Bool :=
  r.user_id == u && r.external_id == eid

/-- `Query.one_or_none`: `MultipleResultsFound` is raised when more than
one row matches. -/
def one_or_none (u : Nat) (eid : String) (rows : List CalendarEvent) :
    Except String (Option CalendarEvent) :=
  match rows.filter (rowKeyMatches u eid) with
  | [] => .ok none
  | [r] => .ok (some r)
  | _ => .error "MultipleResultsFound"

/-- One iteration of the upsert loop of `_sync_calendar_events`. -/
def syncOne (u : Nat) (now : PyDateTime) (rows : List CalendarEvent) (ev : GEvent) :
    Except String (List CalendarEvent) :=
  match eventExternalId ev with
  | none => .ok rows
  | some eid =>
    match one_or_none u eid rows with
    | .error e => .error e
    | .ok (some _) =>
      .ok (rows.map fun r => if rowKeyMatches u eid r then applyEvent ev r else r)
    | .ok none => .ok (rows ++ [newRow u now ev eid])

/-- `VoicePersonalAssistant._sync_calendar_events`; the surrounding
session commits the row list on success and rolls back (leaving the
table unchanged) when the loop raises. -/
def sync_calendar_events (u : Nat) (now : PyDateTime) (rows : List CalendarEvent)
    (events : List GEvent) : Except String (List CalendarEvent) :=
  if events.isEmpty then .ok rows
  else events.foldlM (syncOne u now) rows

/-- Number of rows matching a `(user id, external id)` key. -/
def countKey (u : Nat) (eid : String) (rows : List CalendarEvent) : Nat :=
  (rows.filter (rowKeyMatches u eid)).length

/-- Every `(user id, external id)` key owns at most one row — the upsert
loop's implicit precondition for `one_or_none`. -/
def AtMostOne (rows : List CalendarEvent) : Prop :=
  ∀ u eid, countKey u eid rows ≤ 1

/-! ## The orchestrator (`VoicePersonalAssistant.handle_audio` and its
handlers), with remote effects supplied by an environment record -/

/-- A `{channel, result}` notification outcome. -/
structure Notification where
  channel : String
  result : List (String × String)
  deriving DecidableEq, Repr

/-- The normalized classifier output mapping; a field is `none` when the
key is absent from the returned dictionary. -/
structure AgentDict where
  intent : Option String
  confidence : Option PyVal
  parameters : Option Params
  follow_up : Option String
  summary : Option String
  explanation : Option String
  deriving DecidableEq, Repr

/-- The uniform handler result dictionary. -/
structure HandlerResult where
  response_text : String
  calendar_events : List GEvent
  notifications : List Notification
  errors : List String
  deriving DecidableEq, Repr

/-- A performed remote call (for expressing "no network call"). -/
inductive RemoteCall where
  | calendarList
  | pushover (message title : String) (priority : Int)
  | sendgrid (to_email subject body : String)
  deriving DecidableEq, Repr

/-- The mutable world: the two database tables plus the log of remote
calls performed. -/
structure World where
  calendar_rows : List CalendarEvent
  conversations : List Conversation
  calls : List RemoteCall
  deriving DecidableEq, Repr

/-- Appends a performed remote call. -/
def recordCall (w : World) (c : RemoteCall) : World :=
  { w with calls := w.calls ++ [c] }

/-- Outcomes of the external collaborators for one turn: each field is
what the corresponding call would yield, `Except.error` modelling a
raised exception. -/
structure Env where
  userId : Nat
  now : PyDateTime
  transcribeResult : Except String String
  agentResult : Except String AgentDict
  speechConfigured : Bool
  synthesizeCall : Except String String
  calendarConfigured : Bool
  calendarCall : Except String (List GEvent)
  pushoverConfigured : Bool
  pushoverCall : Except String (List (String × String))
  sendgridConfigured : Bool
  sendgridCall : Except String Unit
  deriving Repr

/-- The dataclass `VoiceInteractionResult`. -/
structure VoiceInteractionResult where
  transcription : String
  response_text : String
  audio_path : Option String
  intent : String
  confidence : Rat
  calendar_events : List GEvent
  notifications : List Notification
  errors : List String
  deriving DecidableEq, Repr

/-- `VoicePersonalAssistant._handle_calendar_lookup`. -/
def handle_calendar_lookup (env : Env) (w : World) (p : Params) (_fu : Option String) :
    Except String (HandlerResult × World) :=
  let keyword := pyOr (p.get "keyword") (p.get "subject")
  let within_days := (p.get "within_days").getD (.vint 7)
  let max_results := (p.get "max_results").getD (.vint 5)
  let step : String × List GEvent × List String × World :=
    if !env.calendarConfigured then
      ("", [],
        ["Google Calendar integration is not configured. Set GOOGLE_SERVICE_ACCOUNT_FILE or GOOGLE_SERVICE_ACCOUNT_JSON."],
        w)
    else
      match pyToInt within_days with
      | .error e => ("", [], ["Calendar lookup failed: " ++ e], w)
      | .ok _ =>
        match pyToInt max_results with
        | .error e => ("", [], ["Calendar lookup failed: " ++ e], w)
        | .ok _ =>
          match env.calendarCall with
          | .error e => ("", [], ["Calendar lookup failed: " ++ e], recordCall w .calendarList)
          | .ok evs =>
            let rt := format_calendar_response evs keyword
            match sync_calendar_events env.userId env.now w.calendar_rows evs with
            | .error e => (rt, evs, ["Calendar lookup failed: " ++ e], recordCall w .calendarList)
            | .ok rows1 =>
              (rt, evs, [], recordCall { w with calendar_rows := rows1 } .calendarList)
  let (response_text, events, errors, w1) := step
  let response_text :=
    if response_text.isEmpty && errors.isEmpty then
      "I could not find any matching events in your calendar."
    else response_text
  .ok ({ response_text := response_text, calendar_events := events,
         notifications := [], errors := errors }, w1)

/-- `int(parameters.get("priority", 0))` in the push handler. -/
def priorityValue (p : Params) : Except String Int :=
  pyToInt ((p.get "priority").getD (.vint 0))

/-- `VoicePersonalAssistant._handle_push_notification`.  Note that the
priority coercion runs before the missing-message early return and
outside any `try`. -/
def handle_push_notification (env : Env) (w : World) (p : Params) (_fu : Option String) :
    Except String (HandlerResult × World) :=
  let message := pyOr (p.get "message") (p.get "content")
  let title := pyOrDefault (p.get "title") "Reminder from Hiya Assistant"
  match priorityValue p with
  | .error e => .error e
  | .ok priority =>
    if !otruthy message then
      .ok ({ response_text := "What would you like me to include in the push notification?",
             calendar_events := [], notifications := [], errors := [] }, w)
    else
      let msgStr := match message with | some v => pyStr v | none => ""
      let (notifications, errors, w1) :=
        if !env.pushoverConfigured then
          ([], ["Pushover credentials are not configured."], w)
        else
          match env.pushoverCall with
          | .ok res =>
            ([⟨"pushover", res⟩], [], recordCall w (.pushover msgStr title priority))
          | .error e =>
            ([], ["Pushover notification failed: " ++ e],
              recordCall w (.pushover msgStr title priority))
      let response_text :=
        if errors.isEmpty then "I sent your push notification."
        else "I could not send the push notification."
      .ok ({ response_text := response_text, calendar_events := [],
             notifications := notifications, errors := errors }, w1)

/-- `VoicePersonalAssistant._handle_send_email`. -/
def handle_send_email (env : Env) (w : World) (p : Params) (_fu : Option String) :
    Except String (HandlerResult × World) :=
  let to_email := pyOr (p.get "to_email") (p.get "recipient")
  let subject := pyOrDefault (p.get "subject") "Update from Hiya Assistant"
  let body := pyOr (p.get "body") (p.get "message")
  if !otruthy to_email then
    .ok ({ response_text := "Who should I email? Please provide an email address.",
           calendar_events := [], notifications := [], errors := [] }, w)
  else if !otruthy body then
    .ok ({ response_text := "What would you like me to say in the email?",
           calendar_events := [], notifications := [], errors := [] }, w)
  else
    let toStr := match to_email with | some v => pyStr v | none => ""
    let bodyStr := match body with | some v => pyStr v | none => ""
    let (notifications, errors, w1) :=
      if !env.sendgridConfigured then
        (([] : List Notification), ["SendGrid credentials are not configured."], w)
      else
        match env.sendgridCall with
        | .ok _ =>
          ([⟨"sendgrid", [("status", "queued")]⟩], [],
            recordCall w (.sendgrid toStr subject bodyStr))
        | .error e =>
          ([], ["SendGrid email failed: " ++ e], recordCall w (.sendgrid toStr subject bodyStr))
    let response_text :=
      if errors.isEmpty then "I sent the email as requested."
      else "I could not send the email."
    .ok ({ response_text := response_text, calendar_events := [],
           notifications := notifications, errors := errors }, w1)

/-- `VoicePersonalAssistant._handle_smalltalk`. -/
def handle_smalltalk (_env : Env) (w : World) (p : Params) (_fu : Option String) :
    Except String (HandlerResult × World) :=
  .ok ({ response_text := pyOrDefault (p.get "reply") "Happy to help! What else can I do for you?",
         calendar_events := [], notifications := [], errors := [] }, w)

/-- `VoicePersonalAssistant._handle_clarification`. -/
def handle_clarification (_env : Env) (w : World) (p : Params) (fu : Option String) :
    Except String (HandlerResult × World) :=
  let question :=
    match fu with
    | some s => if s.isEmpty then pyOrDefault (p.get "question") "Could you clarify what you need?" else s
    | none => pyOrDefault (p.get "question") "Could you clarify what you need?"
  .ok ({ response_text := question, calendar_events := [], notifications := [],
         errors := [] }, w)

/-- `VoicePersonalAssistant._handle_unknown`. -/
def handle_unknown (_env : Env) (w : World) (_p : Params) (_fu : Option String) :
    Except String (HandlerResult × World) :=
  .ok ({ response_text := "I\x27m not sure how to help with that yet, but I\x27m learning every day!",
         calendar_events := [], notifications := [], errors := [] }, w)

/-- `VoicePersonalAssistant._execute_intent`: the `handlers` dictionary
lookup with `_handle_unknown` as default. -/
def execute_intent (env : Env) (w : World) (intent : String) (p : Params)
    (fu : Option String) : Except String (HandlerResult × World) :=
  let intent := if intent.isEmpty then "unknown" else intent
  if intent = "calendar_lookup" then handle_calendar_lookup env w p fu
  else if intent = "push_notification" then handle_push_notification env w p fu
  else if intent = "send_email" then handle_send_email env w p fu
  else if intent = "smalltalk" then handle_smalltalk env w p fu
  else if intent = "clarification" then handle_clarification env w p fu
  else handle_unknown env w p fu

/-- `SpeechService.synthesize`: returns no audio when unconfigured or
for blank text, and swallows every backend exception. -/
def synthesize (env : Env) (text : String) : Option String :=
  if !env.speechConfigured then none
  else if (pyStrip text).isEmpty then none
  else
    match env.synthesizeCall with
    | .ok path => some path
    | .error _ => none

/-- `float(agent_result.get("confidence", 0.0))`. -/
def confValue (a : AgentDict) : Except String Rat :=
  match a.confidence with
  | none => .ok (mkRat 0 1)
  | some v => pyfloat v

/-- `int(confidence * 100)` (truncation toward zero). -/
def confidencePct (q : Rat) : Int :=
  Int.tdiv (q.num * 100) (q.den : Int)

/-- `VoicePersonalAssistant._persist_conversation`. -/
def persist_conversation (env : Env) (w : World) (transcription response intent : String)
    (confidence : Rat) : World :=
  { w with conversations := w.conversations ++
      [⟨env.userId, transcription, response, intent, confidencePct confidence⟩] }

/-- `VoicePersonalAssistant.handle_audio`, the turn pipeline entry
point.  `Except.error` models an exception escaping to the caller. -/
def handle_audio (env : Env) (w : World) : Except String (VoiceInteractionResult × World) :=
  let (errors0, transcription0) :=
    match env.transcribeResult with
    | .ok t => (([] : List String), t)
    | .error e => (["Transcription failed: " ++ e], "")
  let transcription :=
    if transcription0.isEmpty then "I could not transcribe your audio. Please try again."
    else transcription0
  match env.agentResult with
  | .error e => .error e
  | .ok a =>
    let intent := a.intent.getD "unknown"
    match confValue a with
    | .error e => .error e
    | .ok confidence =>
      let parameters := a.parameters.getD []
      let follow_up := a.follow_up
      match execute_intent env w intent parameters follow_up with
      | .error e => .error e
      | .ok (execution, w1) =>
        let errors := errors0 ++ execution.errors
        let response_text :=
          if execution.response_text.isEmpty then a.summary.getD "I processed your request."
          else execution.response_text
        let audio_output := synthesize env response_text
        let w2 := persist_conversation env w1 transcription response_text intent confidence
        .ok ({ transcription := transcription, response_text := response_text,
               audio_path := audio_output, intent := intent, confidence := confidence,
               calendar_events := execution.calendar_events,
               notifications := execution.notifications, errors := errors }, w2)

/-! ## The intent classifier adapter (`run_voice_agent.run_voice_agent`) -/

/-- A raised Python exception, separating `TypeError` (which the adapter
inspects) from every other exception class. -/
inductive PyExc where
  | typeError (msg : String)
  | other (msg : String)
  deriving DecidableEq, Repr

/-- `json.loads(payload)` outcome: a decode error, a parsed non-mapping
value, or a mapping (restricted to the keys downstream code reads). -/
inductive ParsedPayload where
  | failed
  | nonMapping
  | mapping (d : AgentDict)
  deriving DecidableEq, Repr

/-- What one `CLIENT.responses.create` call yields: the raw
`output_text` together with what `json.loads` makes of it. -/
structure ModelReply where
  output_text : String
  parsed : ParsedPayload
  deriving DecidableEq, Repr

/-- The language-model backend as seen by `run_voice_agent`: whether the
client is configured, and the outcomes of the call with and without the
`response_format` argument. -/
structure AgentBackend where
  configured : Bool
  create : Except PyExc ModelReply
  createNoFormat : Except PyExc ModelReply
  deriving Repr

/-- The `TypeError` message test deciding whether to retry without
`response_format`. -/
def retryableTypeError (msg : String) : Bool :=
  strContains msg "unexpected keyword argument 'response_format'"

/-- `run_voice_agent.run_voice_agent` (the `user_message` / `user_id` /
`context` arguments do not influence which branch is taken, so only the
backend is passed). -/
def run_voice_agent (b : AgentBackend) : Except PyExc AgentDict :=
  if !b.configured then
    .ok { intent := some "unknown", confidence := some (.vint 0), parameters := some [],
          follow_up := none, summary := none,
          explanation := some "OpenAI client is not configured. Provide OPENAI_API_KEY." }
  else
    let callResult : Except PyExc ModelReply :=
      match b.create with
      | .ok r => .ok r
      | .error (.typeError m) =>
        if retryableTypeError m then b.createNoFormat else .error (.typeError m)
      | .error e => .error e
    match callResult with
    | .error e => .error e
    | .ok reply =>
      match reply.parsed with
      | .failed =>
        .ok { intent := some "unknown", confidence := some (.vint 0), parameters := some [],
              follow_up := some "I could not parse the model response. Could you rephrase?",
              summary := some reply.output_text, explanation := none }
      | .nonMapping =>
        .ok { intent := some "unknown", confidence := some (.vint 0), parameters := some [],
              follow_up := some "I received an unexpected reply. Please try again.",
              summary := some reply.output_text, explanation := none }
      | .mapping d =>
        .ok { d with parameters := some (d.parameters.getD []),
                     confidence := some (d.confidence.getD (.vint 0)),
                     summary := some (d.summary.getD reply.output_text) }

/-! ## The email client (`notification_services.SendGridClient`) -/

/-- Credential state of a `SendGridClient`. -/
structure SendGridClient where
  api_key : Option String
  default_sender : Option String
  deriving DecidableEq, Repr

/-- Truthiness of an optional credential string. -/
def sTruthy : Option String → Bool
  | none => false
  | some s => !s.isEmpty

/-- `SendGridClient.is_configured`. -/
def SendGridClient.is_configured (c : SendGridClient) : Bool :=
  sTruthy c.api_key && sTruthy c.default_sender

/-- The two exception classes `SendGridClient.send_email` can raise:
its own `RuntimeError` configuration gate, or an error from the HTTP
call. -/
inductive SgExc where
  | runtimeError (msg : String)
  | httpError (msg : String)
  deriving DecidableEq, Repr

/-- `SendGridClient.send_email`; `net` is the outcome of the
`httpx` POST (including `raise_for_status`), whose response body is
discarded in favour of the fixed `{"status": "queued"}` payload. -/
def SendGridClient.send_email (c : SendGridClient) (_to_email _subject _content : String)
    (sender_email : Option String) (net : Except String Unit) :
    Except SgExc (List (String × String)) :=
  if !c.is_configured && !(sTruthy c.api_key && sTruthy sender_email) then
    .error (.runtimeError "SendGrid credentials or sender email are not configured.")
  else
    match net with
    | .error e => .error (.httpError e)
    | .ok _ => .ok [("status", "queued")]

/-! ## Concrete fixtures used by counterexamples and witnesses -/

/-- A fixed clock value. -/
def dt0 : PyDateTime := ⟨2024, 1, 1, 0, 0, 0⟩

/-- A classifier output for a friendly smalltalk turn. -/
def agent0 : AgentDict :=
  { intent := some "smalltalk", confidence := some (.vint 1), parameters := some [],
    follow_up := none, summary := some "hi", explanation := none }

/-- A baseline environment: transcription succeeds, nothing else is
configured. -/
def env0 : Env :=
  { userId := 1, now := dt0, transcribeResult := .ok "hello",
    agentResult := .ok agent0, speechConfigured := false,
    synthesizeCall := .error "tts down", calendarConfigured := false,
    calendarCall := .ok [], pushoverConfigured := false, pushoverCall := .ok [],
    sendgridConfigured := false, sendgridCall := .error "net down" }

/-- The empty world. -/
def w0 : World := ⟨[], [], []⟩

/-- A classifier output whose `summary` key is present but empty, with a
calendar-lookup intent. -/
def agentC1 : AgentDict :=
  { intent := some "calendar_lookup", confidence := some (.vint 1), parameters := some [],
    follow_up := none, summary := some "", explanation := none }

/-- Environment for the C1 counterexample (calendar unconfigured). -/
def envC1 : Env := { env0 with agentResult := .ok agentC1 }

/-- A classifier output carrying a push-notification intent whose
`priority` parameter is the string `"high"`. -/
def agentC2 : AgentDict :=
  { intent := some "push_notification", confidence := some (.vint 1),
    parameters := some [("message", .vstr "hi"), ("priority", .vstr "high")],
    follow_up := none, summary := some "s", explanation := none }

/-- Environment for the C2 counterexample. -/
def envC2 : Env := { env0 with agentResult := .ok agentC2 }

/-- Environment whose configured calendar integration returns zero
events. -/
def envC4 : Env := { env0 with calendarConfigured := true, calendarCall := .ok [] }

/-- A configured backend whose remote call raises a non-`TypeError`
exception (a transport failure). -/
def backendC3 : AgentBackend :=
  { configured := true, create := .error (.other "APIConnectionError: Connection error."),
    createNoFormat := .error (.other "unused") }

/-- An unconfigured backend. -/
def backendU : AgentBackend :=
  { configured := false, create := .error (.other "unused"),
    createNoFormat := .error (.other "unused") }

/-- A raw provider event with a stable external id. -/
def ev9 : GEvent :=
  { id := some "abc", summary := some "Meeting", description := some "d",
    startDateTime := some "2024-10-19T18:00:00Z", startDate := none,
    endDateTime := some "2024-10-19T19:00:00Z", endDate := none, location := some "HQ" }

/-! ## Claim theorems -/

lemma format_calendar_response_nil (kw : Option PyVal) :
    format_calendar_response [] kw =
      "I didn\x27t find any upcoming events that match your request." := rfl

/-- C4 counterexample: with a configured calendar client returning zero
events and an empty error list, the handler's reply is the formatter's
"I didn\x27t find any upcoming events that match your request." — not the
fixed string "I could not find any matching events in your calendar."
claimed by the spec (that branch requires an empty reply AND no errors,
which the zero-event path never produces). -/
theorem calendar_zero_events_cex :
    handle_calendar_lookup envC4 w0 [] none =
      .ok ({ response_text := "I didn\x27t find any upcoming events that match your request.",
             calendar_events := [], notifications := [], errors := [] },
           ⟨[], [], [.calendarList]⟩) ∧
    "I didn\x27t find any upcoming events that match your request." ≠
      "I could not find any matching events in your calendar." := by
  constructor
  · decide
  · decide

/-- C4 (amended): when the calendar client is configured, the remote
call returns zero events and the handler reports no errors, the reply
text equals "I didn\x27t find any upcoming events that match your
request." -/
theorem calendar_zero_events_reply (env : Env) (w : World) (p : Params) (fu : Option String)
    (r : HandlerResult) (w' : World)
    (hcfg : env.calendarConfigured = true)
    (hz : env.calendarCall = .ok [])
    (h : handle_calendar_lookup env w p fu = .ok (r, w'))
    (he : r.errors = []) :
    r.response_text = "I didn\x27t find any upcoming events that match your request." := by
  unfold handle_calendar_lookup at h
  rw [hcfg, hz] at h
  cases hwd : pyToInt ((p.get "within_days").getD (PyVal.vint 7)) with
  | error e =>
    simp only [hwd, Bool.not_true, Bool.false_eq_true, if_false, Except.ok.injEq,
      Prod.mk.injEq] at h
    obtain ⟨hr, _⟩ := h
    subst hr
    simp at he
  | ok nwd =>
    cases hmr : pyToInt ((p.get "max_results").getD (PyVal.vint 5)) with
    | error e =>
      simp only [hwd, hmr, Bool.not_true, Bool.false_eq_true, if_false, Except.ok.injEq,
        Prod.mk.injEq] at h
      obtain ⟨hr, _⟩ := h
      subst hr
      simp at he
    | ok nmr =>
      simp only [hwd, hmr, Bool.not_true, Bool.false_eq_true, if_false,
        show sync_calendar_events env.userId env.now w.calendar_rows ([] : List GEvent) =
          Except.ok w.calendar_rows from rfl,
        format_calendar_response_nil,
        show ("I didn\x27t find any upcoming events that match your request." : String).isEmpty =
          false from rfl,
        Bool.false_and, Except.ok.injEq, Prod.mk.injEq] at h
      obtain ⟨hr, _⟩ := h
      subst hr
      rfl

/-- C4 witness: the amended theorem evaluated on the concrete
zero-event environment. -/
theorem calendar_zero_events_reply_witness :
    ({ response_text := "I didn\x27t find any upcoming events that match your request.",
       calendar_events := [], notifications := [], errors := [] } : HandlerResult).response_text =
      "I didn\x27t find any upcoming events that match your request." :=
  calendar_zero_events_reply envC4 w0 [] none
    { response_text := "I didn\x27t find any upcoming events that match your request.",
      calendar_events := [], notifications := [], errors := [] }
    ⟨[], [], [.calendarList]⟩ rfl rfl (by decide) (by decide)

/-- C5: every intent outside the five-entry dispatch table (including
`unknown` and the empty string) routes to `_handle_unknown`, which
returns the fixed reply with an empty error list and leaves the world
untouched, without raising. -/
theorem dispatch_unhandled_intent (env : Env) (w : World) (intent : String) (p : Params)
    (fu : Option String)
    (h1 : intent ≠ "calendar_lookup") (h2 : intent ≠ "push_notification")
    (h3 : intent ≠ "send_email") (h4 : intent ≠ "smalltalk") (h5 : intent ≠ "clarification") :
    execute_intent env w intent p fu =
      .ok ({ response_text := "I\x27m not sure how to help with that yet, but I\x27m learning every day!",
             calendar_events := [], notifications := [], errors := [] }, w) := by
  by_cases he : intent = ""
  · subst he
    rfl
  · unfold execute_intent
    have hii : (if intent.isEmpty = true then "unknown" else intent) = intent :=
      if_neg (by simp [String.isEmpty_iff, he])
    rw [hii, if_neg h1, if_neg h2, if_neg h3, if_neg h4, if_neg h5]
    rfl

/-- C5 witness: the theorem applied to the intent name `unknown`. -/
theorem dispatch_unhandled_intent_witness :
    execute_intent env0 w0 "unknown" [] none =
      .ok ({ response_text := "I\x27m not sure how to help with that yet, but I\x27m learning every day!",
             calendar_events := [], notifications := [], errors := [] }, w0) :=
  dispatch_unhandled_intent env0 w0 "unknown" [] none (by decide) (by decide) (by decide)
    (by decide) (by decide)

/-- C6: with neither recipient (`to_email`/`recipient`) nor body
(`body`/`message`) present, `_handle_send_email` returns immediately
with the recipient question (not the body question), an empty error
list, and an unchanged world (no network call). -/
theorem send_email_recipient_first (env : Env) (w : World) (p : Params) (fu : Option String)
    (hr : otruthy (pyOr (p.get "to_email") (p.get "recipient")) = false)
    (_hb : otruthy (pyOr (p.get "body") (p.get "message")) = false) :
    handle_send_email env w p fu =
      .ok ({ response_text := "Who should I email? Please provide an email address.",
             calendar_events := [], notifications := [], errors := [] }, w) := by
  simp [handle_send_email, hr]

/-- C6 witness: the theorem applied to the empty parameter mapping. -/
theorem send_email_recipient_first_witness :
    handle_send_email env0 w0 [] none =
      .ok ({ response_text := "Who should I email? Please provide an email address.",
             calendar_events := [], notifications := [], errors := [] }, w0) :=
  send_email_recipient_first env0 w0 [] none (by decide) (by decide)

/-- C7 counterexample: the mapping `{"priority": "high"}` has no
message/content value, yet the push handler raises the `int()`
`ValueError` (the priority coercion precedes the missing-message early
return) instead of returning the clarifying question. -/
theorem push_priority_cex :
    otruthy (pyOr (Params.get [("priority", .vstr "high")] "message")
        (Params.get [("priority", .vstr "high")] "content")) = false ∧
    handle_push_notification env0 w0 [("priority", .vstr "high")] none =
      .error "invalid literal for int() with base 10: 'high'" := by
  constructor
  · decide
  · decide

/-- C7 (amended): for every parameter mapping with no message/content
value whose `priority` value (default 0) is `int()`-coercible, the push
handler returns immediately with the clarifying question, empty error
and notification lists, and an unchanged world (no network call). -/
theorem push_missing_message (env : Env) (w : World) (p : Params) (fu : Option String) (k : Int)
    (hm : otruthy (pyOr (p.get "message") (p.get "content")) = false)
    (hp : priorityValue p = .ok k) :
    handle_push_notification env w p fu =
      .ok ({ response_text := "What would you like me to include in the push notification?",
             calendar_events := [], notifications := [], errors := [] }, w) := by
  simp [handle_push_notification, hp, hm]

/-- C7 witness: the theorem applied to the empty parameter mapping. -/
theorem push_missing_message_witness :
    handle_push_notification env0 w0 [] none =
      .ok ({ response_text := "What would you like me to include in the push notification?",
             calendar_events := [], notifications := [], errors := [] }, w0) :=
  push_missing_message env0 w0 [] none 0 (by decide) (by decide)

/-- C10: `SendGridClient.send_email` raises its `RuntimeError`
configuration gate exactly when the client is not configured (api key
plus default sender) AND no truthy api key / explicit sender pair is
available; in particular with an api key but no default sender, a call
providing `sender_email` proceeds to the network call even though
`is_configured()` is false. -/
theorem sendgrid_config_gate :
    (∀ (c : SendGridClient) (t s b : String) (se : Option String) (net : Except String Unit),
       SendGridClient.send_email c t s b se net =
           .error (.runtimeError "SendGrid credentials or sender email are not configured.") ↔
         (!c.is_configured && !(sTruthy c.api_key && sTruthy se)) = true) ∧
    (∀ net : Except String Unit,
       SendGridClient.is_configured ⟨some "k", none⟩ = false ∧
       SendGridClient.send_email ⟨some "k", none⟩ "to@x.y" "subject" "body" (some "sender@x.y")
           net =
         (match net with
          | .ok _ => .ok [("status", "queued")]
          | .error e => .error (.httpError e))) := by
  constructor
  · intro c t s b se net
    unfold SendGridClient.send_email
    cases hg : (!c.is_configured && !(sTruthy c.api_key && sTruthy se)) with
    | true => simp
    | false =>
      simp only [Bool.false_eq_true, if_false]
      cases net <;> simp
  · intro net
    refine ⟨rfl, ?_⟩
    cases net <;> rfl

/-- C10 witness: a fully unconfigured client with no sender argument
raises the configuration error. -/
theorem sendgrid_config_gate_witness :
    SendGridClient.send_email ⟨none, none⟩ "a" "b" "c" none (.ok ()) =
      .error (.runtimeError "SendGrid credentials or sender email are not configured.") :=
  (sendgrid_config_gate.1 ⟨none, none⟩ "a" "b" "c" none (.ok ())).mpr (by decide)

lemma fallback_ne_empty (t d : String) (hd : d ≠ "") :
    (if t.isEmpty = true then d else t) ≠ "" := by
  by_cases h : t.isEmpty = true
  · simpa [h] using hd
  · rw [if_neg h]
    intro hc
    exact h (by rw [hc]; rfl)

/-- C1 counterexample: when the classifier returns a `calendar_lookup`
intent with a present-but-empty `summary` and the calendar integration
is unconfigured, `handle_audio` returns a result whose `response_text`
is the empty string (the handler reply is empty and the empty summary is
used verbatim), refuting "response_text is always non-empty". -/
theorem handle_audio_empty_reply_cex :
    (handle_audio envC1 w0).toOption.map (fun pr => pr.1.response_text) = some "" := by
  decide

/-- C1 (amended): whenever `handle_audio` returns, the transcription is
non-empty; and the reply text is non-empty provided the classifier
output's `summary` key, when present, is non-empty. -/
theorem handle_audio_nonempty_output (env : Env) (w : World) (a : AgentDict)
    (r : VoiceInteractionResult) (w' : World)
    (ha : env.agentResult = .ok a)
    (hs : a.summary ≠ some "")
    (h : handle_audio env w = .ok (r, w')) :
    r.transcription ≠ "" ∧ r.response_text ≠ "" := by
  unfold handle_audio at h
  cases hc : confValue a with
  | error e =>
    simp only [ha, hc] at h
    exact Except.noConfusion h
  | ok conf =>
    cases hx : execute_intent env w (a.intent.getD "unknown") (a.parameters.getD [])
        a.follow_up with
    | error e =>
      simp only [ha, hc, hx] at h
      exact Except.noConfusion h
    | ok ew =>
      obtain ⟨exec, w1⟩ := ew
      simp only [ha, hc, hx, Except.ok.injEq, Prod.mk.injEq] at h
      obtain ⟨hr, _⟩ := h
      subst hr
      constructor
      · exact fallback_ne_empty _ _ (by decide)
      · show (if exec.response_text.isEmpty = true then
            a.summary.getD "I processed your request."
          else exec.response_text) ≠ ""
        by_cases hrt : exec.response_text.isEmpty = true
        · rw [if_pos hrt]
          cases hsum : a.summary with
          | none =>
            rw [Option.getD_none]
            decide
          | some s2 =>
            rw [Option.getD_some]
            intro hcon
            exact hs (by rw [hsum, hcon])
        · rw [if_neg hrt]
          intro hcon
          exact hrt (by rw [hcon]; rfl)

/-- The concrete turn result produced by the baseline environment. -/
def rW : VoiceInteractionResult :=
  { transcription := "hello", response_text := "Happy to help! What else can I do for you?",
    audio_path := none, intent := "smalltalk", confidence := mkRat 1 1, calendar_events := [],
    notifications := [], errors := [] }

/-- The concrete world produced by the baseline environment. -/
def wW : World :=
  ⟨[], [⟨1, "hello", "Happy to help! What else can I do for you?", "smalltalk", 100⟩], []⟩

/-- C1 witness: the amended theorem applied to the baseline turn. -/
theorem handle_audio_nonempty_output_witness :
    rW.transcription ≠ "" ∧ rW.response_text ≠ "" :=
  handle_audio_nonempty_output env0 w0 agent0 rW wW rfl (by decide) (by decide)

/-- C2 counterexample: a classified `push_notification` turn whose
`priority` parameter is `"high"` makes `handle_audio` raise a
`ValueError` out of the pipeline (the coercion sits outside every
`try`), refuting "handle_audio never raises". -/
theorem handle_audio_raises_cex :
    handle_audio envC2 w0 = .error "invalid literal for int() with base 10: 'high'" := by
  decide

lemma handle_calendar_lookup_ok (env : Env) (w : World) (p : Params) (fu : Option String) :
    ∃ res, handle_calendar_lookup env w p fu = .ok res :=
  ⟨_, rfl⟩

lemma handle_push_notification_ok (env : Env) (w : World) (p : Params) (fu : Option String)
    (k : Int) (hp : priorityValue p = .ok k) :
    ∃ res, handle_push_notification env w p fu = .ok res := by
  unfold handle_push_notification
  simp only [hp]
  split
  · exact ⟨_, rfl⟩
  · exact ⟨_, rfl⟩

lemma handle_send_email_ok (env : Env) (w : World) (p : Params) (fu : Option String) :
    ∃ res, handle_send_email env w p fu = .ok res := by
  simp only [handle_send_email]
  split
  · exact ⟨_, rfl⟩
  · split
    · exact ⟨_, rfl⟩
    · exact ⟨_, rfl⟩

lemma execute_intent_def (env : Env) (w : World) (intent : String) (p : Params)
    (fu : Option String) :
    execute_intent env w intent p fu =
      (if (if intent.isEmpty = true then "unknown" else intent) = "calendar_lookup" then
        handle_calendar_lookup env w p fu
      else if (if intent.isEmpty = true then "unknown" else intent) = "push_notification" then
        handle_push_notification env w p fu
      else if (if intent.isEmpty = true then "unknown" else intent) = "send_email" then
        handle_send_email env w p fu
      else if (if intent.isEmpty = true then "unknown" else intent) = "smalltalk" then
        handle_smalltalk env w p fu
      else if (if intent.isEmpty = true then "unknown" else intent) = "clarification" then
        handle_clarification env w p fu
      else handle_unknown env w p fu) := rfl

lemma execute_intent_ok (env : Env) (w : World) (intent : String) (p : Params)
    (fu : Option String) (k : Int) (hp : priorityValue p = .ok k) :
    ∃ res, execute_intent env w intent p fu = .ok res := by
  rw [execute_intent_def]
  by_cases h1 : (if intent.isEmpty = true then "unknown" else intent) = "calendar_lookup"
  · rw [if_pos h1]
    exact handle_calendar_lookup_ok env w p fu
  · rw [if_neg h1]
    by_cases h2 : (if intent.isEmpty = true then "unknown" else intent) = "push_notification"
    · rw [if_pos h2]
      exact handle_push_notification_ok env w p fu k hp
    · rw [if_neg h2]
      by_cases h3 : (if intent.isEmpty = true then "unknown" else intent) = "send_email"
      · rw [if_pos h3]
        exact handle_send_email_ok env w p fu
      · rw [if_neg h3]
        by_cases h4 : (if intent.isEmpty = true then "unknown" else intent) = "smalltalk"
        · rw [if_pos h4]
          exact ⟨_, rfl⟩
        · rw [if_neg h4]
          by_cases h5 : (if intent.isEmpty = true then "unknown" else intent) = "clarification"
          · rw [if_pos h5]
            exact ⟨_, rfl⟩
          · rw [if_neg h5]
            exact ⟨_, rfl⟩

/-- C2 (amended): the handlers contain every exception from their
remote-call `try` blocks — for any outcomes of the transcription,
synthesis, calendar, Pushover and SendGrid collaborators, `handle_audio`
returns normally, provided the three unguarded coercion points succeed:
the classifier call itself, `float()` of the classified confidence, and
`int()` of the push handler's priority parameter. -/
theorem handle_audio_no_raise (env : Env) (w : World) (a : AgentDict) (c : Rat) (k : Int)
    (ha : env.agentResult = .ok a)
    (hc : confValue a = .ok c)
    (hp : priorityValue (a.parameters.getD []) = .ok k) :
    ∃ r w', handle_audio env w = .ok (r, w') := by
  unfold handle_audio
  obtain ⟨⟨exec, w1⟩, hres⟩ :=
    execute_intent_ok env w (a.intent.getD "unknown") (a.parameters.getD []) a.follow_up k hp
  simp only [ha, hc, hres]
  exact ⟨_, _, rfl⟩

/-- C2 witness: the no-raise theorem applied to the baseline turn. -/
theorem handle_audio_no_raise_witness :
    ∃ r w', handle_audio env0 w0 = .ok (r, w') :=
  handle_audio_no_raise env0 w0 agent0 (mkRat 1 1) 0 rfl (by decide) (by decide)

/-- C3 counterexample: with a configured client whose backend call
raises a transport error (not a `TypeError`), `run_voice_agent`
propagates the exception instead of degrading to the unknown intent,
refuting "run_voice_agent never raises". -/
theorem run_voice_agent_raises_cex :
    run_voice_agent backendC3 = .error (.other "APIConnectionError: Connection error.") := by
  decide

/-- C3 (amended): an unconfigured backend, a payload that fails JSON
decoding, and a payload that decodes to a non-mapping all degrade to a
returned mapping with intent `"unknown"` and confidence 0.0; but every
exception `run_voice_agent` raises comes from the backend call itself —
either the first call raised something other than the retryable
`response_format` `TypeError`, or the retry without `response_format`
raised. -/
theorem run_voice_agent_degrades :
    (∀ b : AgentBackend, b.configured = false →
       ∃ d, run_voice_agent b = .ok d ∧ d.intent = some "unknown" ∧
         d.confidence = some (.vint 0)) ∧
    (∀ (b : AgentBackend) (reply : ModelReply), b.configured = true →
       b.create = .ok reply → (reply.parsed = .failed ∨ reply.parsed = .nonMapping) →
       ∃ d, run_voice_agent b = .ok d ∧ d.intent = some "unknown" ∧
         d.confidence = some (.vint 0)) ∧
    (∀ (b : AgentBackend) (e : PyExc), run_voice_agent b = .error e →
       b.create = .error e ∨
         ∃ m, b.create = .error (.typeError m) ∧ retryableTypeError m = true ∧
           b.createNoFormat = .error e) := by
  refine ⟨?_, ?_, ?_⟩
  · intro b hb
    unfold run_voice_agent
    simp only [hb, Bool.not_false, if_true]
    exact ⟨_, rfl, rfl, rfl⟩
  · intro b reply hb hcr hparse
    unfold run_voice_agent
    simp only [hb, hcr, Bool.not_true, Bool.false_eq_true, if_false]
    rcases hparse with hparse | hparse <;> simp only [hparse] <;> exact ⟨_, rfl, rfl, rfl⟩
  · intro b e h
    unfold run_voice_agent at h
    cases hb : b.configured with
    | false =>
      simp only [hb, Bool.not_false, if_true] at h
      exact Except.noConfusion h
    | true =>
      simp only [hb, Bool.not_true, Bool.false_eq_true, if_false] at h
      cases hcr : b.create with
      | ok reply =>
        simp only [hcr] at h
        cases hparse : reply.parsed <;> simp [hparse] at h
      | error exc =>
        cases exc with
        | typeError m =>
          simp only [hcr] at h
          cases hrm : retryableTypeError m with
          | true =>
            simp only [hrm, if_true] at h
            cases hnf : b.createNoFormat with
            | error e2 =>
              simp only [hnf, Except.error.injEq] at h
              subst h
              exact Or.inr ⟨m, rfl, hrm, rfl⟩
            | ok reply =>
              simp only [hnf] at h
              cases hparse : reply.parsed <;> simp [hparse] at h
          | false =>
            simp only [hrm, Bool.false_eq_true, if_false, Except.error.injEq] at h
            subst h
            exact Or.inl rfl
        | other m =>
          simp only [hcr, Except.error.injEq] at h
          subst h
          exact Or.inl rfl

/-- C3 witness: the degradation theorem applied to an unconfigured
backend. -/
theorem run_voice_agent_degrades_witness :
    ∃ d, run_voice_agent backendU = .ok d ∧ d.intent = some "unknown" ∧
      d.confidence = some (.vint 0) :=
  run_voice_agent_degrades.1 backendU rfl

lemma map_id_of_mem {α : Type _} (l : List α) (f : α → α) (h : ∀ x ∈ l, f x = x) :
    l.map f = l := by
  induction l with
  | nil => rfl
  | cons a t ih =>
    simp only [List.map_cons]
    rw [h a (by simp), ih (fun x hx => h x (by simp [hx]))]

lemma rowKeyMatches_applyEvent (u : Nat) (e : String) (ev : GEvent) (r : CalendarEvent) :
    rowKeyMatches u e (applyEvent ev r) = rowKeyMatches u e r := rfl

lemma filter_update (u : Nat) (eid : String) (ev : GEvent) (u' : Nat) (e' : String)
    (rows : List CalendarEvent) :
    (rows.map fun x => if rowKeyMatches u eid x then applyEvent ev x else x).filter
        (rowKeyMatches u' e') =
      (rows.filter (rowKeyMatches u' e')).map
        (fun x => if rowKeyMatches u eid x then applyEvent ev x else x) := by
  rw [List.filter_map]
  have hpe : (rowKeyMatches u' e' ∘ fun x =>
      if rowKeyMatches u eid x then applyEvent ev x else x) = rowKeyMatches u' e' := by
    funext x
    by_cases h : rowKeyMatches u eid x <;> simp [h, rowKeyMatches_applyEvent, Function.comp]
  rw [hpe]

lemma key_matches_iff (u : Nat) (eid : String) (r : CalendarEvent) :
    rowKeyMatches u eid r = true ↔ r.user_id = u ∧ r.external_id = eid := by
  simp [rowKeyMatches]

lemma eq_of_filter_singleton {p : CalendarEvent → Bool} {rows : List CalendarEvent}
    {r x : CalendarEvent} (hf : rows.filter p = [r]) (hx : x ∈ rows) (hpx : p x = true) :
    x = r := by
  have hmem : x ∈ rows.filter p := List.mem_filter.mpr ⟨hx, hpx⟩
  rw [hf] at hmem
  simpa using hmem

lemma applyEvent_applyEvent (ev : GEvent) (r : CalendarEvent) :
    applyEvent ev (applyEvent ev r) = applyEvent ev r := by
  unfold applyEvent
  cases ev.summary <;> cases ev.description <;> cases startDtOf ev <;> cases endDtOf ev <;> rfl

lemma applyEvent_newRow (u : Nat) (now : PyDateTime) (ev : GEvent) (eid : String) :
    applyEvent ev (newRow u now ev eid) = newRow u now ev eid := by
  unfold applyEvent newRow
  cases ev.summary <;> cases ev.description <;> cases startDtOf ev <;> cases endDtOf ev <;> rfl

lemma rowKeyMatches_newRow_false (u : Nat) (now : PyDateTime) (ev : GEvent) (eid : String)
    (u' : Nat) (e' : String) (hk : ¬(u' = u ∧ e' = eid)) :
    rowKeyMatches u' e' (newRow u now ev eid) = false := by
  simp only [rowKeyMatches, newRow]
  by_cases h1 : u = u'
  · by_cases h2 : eid = e'
    · exact absurd ⟨h1.symm, h2.symm⟩ hk
    · have h2f : (eid == e') = false := beq_eq_false_iff_ne.mpr h2
      simp [h2f]
  · have h1f : (u == u') = false := beq_eq_false_iff_ne.mpr h1
    simp [h1f]

lemma syncOne_insert (u : Nat) (now : PyDateTime) (rows : List CalendarEvent) (ev : GEvent)
    (eid : String) (hid : eventExternalId ev = some eid)
    (hf : rows.filter (rowKeyMatches u eid) = []) :
    syncOne u now rows ev = .ok (rows ++ [newRow u now ev eid]) := by
  simp only [syncOne, one_or_none, hid, hf]

lemma syncOne_update (u : Nat) (now : PyDateTime) (rows : List CalendarEvent) (ev : GEvent)
    (eid : String) (r : CalendarEvent) (hid : eventExternalId ev = some eid)
    (hf : rows.filter (rowKeyMatches u eid) = [r]) :
    syncOne u now rows ev =
      .ok (rows.map fun x => if rowKeyMatches u eid x then applyEvent ev x else x) := by
  simp only [syncOne, one_or_none, hid, hf]

lemma syncOne_spec (u : Nat) (now : PyDateTime) (rows : List CalendarEvent) (ev : GEvent)
    (hAM : AtMostOne rows) :
    ∃ rows2, syncOne u now rows ev = .ok rows2 ∧ AtMostOne rows2 ∧
      (∀ eid, eventExternalId ev = some eid →
        ∃ r, rows2.filter (rowKeyMatches u eid) = [r] ∧ applyEvent ev r = r) ∧
      (∀ u' e', (∀ eid, eventExternalId ev = some eid → ¬(u' = u ∧ e' = eid)) →
        rows2.filter (rowKeyMatches u' e') = rows.filter (rowKeyMatches u' e')) := by
  rcases hid : eventExternalId ev with _ | eid
  · refine ⟨rows, by simp [syncOne, hid], hAM, ?_, ?_⟩
    · intro eid h
      cases h
    · intro u' e' _
      rfl
  · have hcount : (rows.filter (rowKeyMatches u eid)).length ≤ 1 := hAM u eid
    rcases hf : rows.filter (rowKeyMatches u eid) with _ | ⟨r, tl⟩
    · refine ⟨rows ++ [newRow u now ev eid], syncOne_insert u now rows ev eid hid hf,
        ?_, ?_, ?_⟩
      · intro u' e'
        simp only [countKey, List.filter_append]
        by_cases hk : u' = u ∧ e' = eid
        · obtain ⟨rfl, rfl⟩ := hk
          rw [hf]
          simp [rowKeyMatches, newRow]
        · rw [show List.filter (rowKeyMatches u' e') [newRow u now ev eid] = [] by
            simp [rowKeyMatches_newRow_false u now ev eid u' e' hk]]
          rw [List.append_nil]
          exact hAM u' e'
      · intro eid0 h
        injection h with h
        rw [← h]
        refine ⟨newRow u now ev eid, ?_, applyEvent_newRow u now ev eid⟩
        rw [List.filter_append, hf]
        simp [rowKeyMatches, newRow]
      · intro u' e' hkeys
        have hk := hkeys eid rfl
        rw [List.filter_append]
        rw [show List.filter (rowKeyMatches u' e') [newRow u now ev eid] = [] by
          simp [rowKeyMatches_newRow_false u now ev eid u' e' hk]]
        rw [List.append_nil]
    · have htl : tl = [] := by
        rw [hf] at hcount
        simp only [List.length_cons] at hcount
        have h0 : tl.length = 0 := by omega
        exact List.length_eq_zero.mp h0
      subst htl
      refine ⟨rows.map fun x => if rowKeyMatches u eid x then applyEvent ev x else x,
        syncOne_update u now rows ev eid r hid hf, ?_, ?_, ?_⟩
      · intro u' e'
        simp only [countKey]
        rw [filter_update, List.length_map]
        exact hAM u' e'
      · intro eid0 h
        injection h with h
        rw [← h]
        have hpr : rowKeyMatches u eid r = true := by
          have hmem : r ∈ rows.filter (rowKeyMatches u eid) := by
            rw [hf]
            simp
          exact (List.mem_filter.mp hmem).2
        refine ⟨applyEvent ev r, ?_, applyEvent_applyEvent ev r⟩
        rw [filter_update, hf]
        simp [hpr]
      · intro u' e' hkeys
        have hk := hkeys eid rfl
        rw [filter_update]
        apply map_id_of_mem
        intro x hx
        have hxmem := List.mem_filter.mp hx
        have hxfalse : rowKeyMatches u eid x = false := by
          cases hxb : rowKeyMatches u eid x with
          | false => rfl
          | true =>
            have h1 := (key_matches_iff u eid x).mp hxb
            have h2 := (key_matches_iff u' e' x).mp hxmem.2
            exact absurd ⟨by rw [← h2.1, h1.1], by rw [← h2.2, h1.2]⟩ hk
        rw [if_neg (by simp [hxfalse])]

lemma fold_spec (u : Nat) (now : PyDateTime) (evts : List GEvent) :
    ∀ rows : List CalendarEvent, AtMostOne rows →
      (evts.filterMap eventExternalId).Nodup →
      ∃ rows1, List.foldlM (syncOne u now) rows evts = .ok rows1 ∧ AtMostOne rows1 ∧
        (∀ ev ∈ evts, ∀ eid, eventExternalId ev = some eid →
          ∃ r, rows1.filter (rowKeyMatches u eid) = [r] ∧ applyEvent ev r = r) ∧
        (∀ u' e', (∀ ev ∈ evts, ∀ eid, eventExternalId ev = some eid → ¬(u' = u ∧ e' = eid)) →
          rows1.filter (rowKeyMatches u' e') = rows.filter (rowKeyMatches u' e')) := by
  induction evts with
  | nil =>
    intro rows hAM _
    exact ⟨rows, rfl, hAM, by simp, fun u' e' _ => rfl⟩
  | cons e rest ih =>
    intro rows hAM hND
    rw [List.filterMap_cons] at hND
    have hNDrest : (rest.filterMap eventExternalId).Nodup := by
      revert hND
      rcases eventExternalId e with _ | i
      · intro hND2
        exact hND2
      · intro hND2
        exact (List.nodup_cons.mp hND2).2
    have hnotin : ∀ eid, eventExternalId e = some eid →
        eid ∉ rest.filterMap eventExternalId := by
      intro eid h
      rw [h] at hND
      exact (List.nodup_cons.mp hND).1
    obtain ⟨rows2, hstep, hAM2, hfix, hpres⟩ := syncOne_spec u now rows e hAM
    obtain ⟨rows1, hfold, hAM1, hfix1, hpres1⟩ := ih rows2 hAM2 hNDrest
    refine ⟨rows1, ?_, hAM1, ?_, ?_⟩
    · rw [List.foldlM_cons, hstep]
      exact hfold
    · intro ev hev eid hid
      rcases List.mem_cons.mp hev with rfl | hev2
      · obtain ⟨r, hfr, hfixr⟩ := hfix eid hid
        have hpr : rows1.filter (rowKeyMatches u eid) = rows2.filter (rowKeyMatches u eid) := by
          apply hpres1
          intro ev' hev' eid' hid' hcontra
          obtain ⟨_, he⟩ := hcontra
          exact (hnotin eid hid) (he ▸ List.mem_filterMap.mpr ⟨ev', hev', hid'⟩)
        exact ⟨r, hpr ▸ hfr, hfixr⟩
      · exact hfix1 ev hev2 eid hid
    · intro u' e' hkeys
      rw [hpres1 u' e' (fun ev hev eid hid => hkeys ev (List.mem_cons_of_mem e hev) eid hid)]
      exact hpres u' e' (fun eid hid => hkeys e (List.mem_cons_self e rest) eid hid)

lemma fold_stable (u : Nat) (now : PyDateTime) (evts : List GEvent) :
    ∀ rows1 : List CalendarEvent,
      (∀ ev ∈ evts, ∀ eid, eventExternalId ev = some eid →
        ∃ r, rows1.filter (rowKeyMatches u eid) = [r] ∧ applyEvent ev r = r) →
      List.foldlM (syncOne u now) rows1 evts = .ok rows1 := by
  induction evts with
  | nil =>
    intro rows1 _
    rfl
  | cons e rest ih =>
    intro rows1 hfix
    have hse : syncOne u now rows1 e = .ok rows1 := by
      rcases hid : eventExternalId e with _ | eid
      · simp [syncOne, hid]
      · obtain ⟨r, hfr, hfixr⟩ := hfix e (List.mem_cons_self e rest) eid hid
        rw [syncOne_update u now rows1 e eid r hid hfr]
        congr 1
        apply map_id_of_mem
        intro x hx
        by_cases hpx : rowKeyMatches u eid x = true
        · rw [if_pos hpx]
          rw [eq_of_filter_singleton hfr hx hpx]
          exact hfixr
        · rw [if_neg hpx]
    rw [List.foldlM_cons, hse]
    exact ih rows1 (fun ev hev eid hid => hfix ev (List.mem_cons_of_mem e hev) eid hid)

/-- C9: the calendar-sync upsert is idempotent.  Starting from a table
with at most one row per `(user id, external id)` key and a fetched
event list whose truthy external ids are pairwise distinct, the first
`_sync_calendar_events` run succeeds, a second run on the same list is
the identity on the table, and the result holds exactly one row per
synced `(user id, external id)` pair. -/
theorem sync_calendar_events_idempotent (u : Nat) (now : PyDateTime)
    (rows : List CalendarEvent) (evts : List GEvent) (hAM : AtMostOne rows)
    (hND : (evts.filterMap eventExternalId).Nodup) :
    ∃ rows1, sync_calendar_events u now rows evts = .ok rows1 ∧
      sync_calendar_events u now rows1 evts = .ok rows1 ∧
      ∀ eid ∈ evts.filterMap eventExternalId, countKey u eid rows1 = 1 := by
  unfold sync_calendar_events
  cases hemp : evts.isEmpty with
  | true =>
    have hnil : evts = [] := by
      cases evts with
      | nil => rfl
      | cons a l => cases hemp
    subst hnil
    exact ⟨rows, rfl, rfl, by simp⟩
  | false =>
    simp only [hemp, Bool.false_eq_true, if_false]
    obtain ⟨rows1, hfold, _, hfix, _⟩ := fold_spec u now evts rows hAM hND
    refine ⟨rows1, hfold, fold_stable u now evts rows1 hfix, ?_⟩
    intro eid hmem
    obtain ⟨ev, hev, hid⟩ := List.mem_filterMap.mp hmem
    obtain ⟨r, hfr, _⟩ := hfix ev hev eid hid
    simp only [countKey]
    rw [hfr]
    rfl

/-- C9 witness: the idempotence theorem applied to an empty table and a
single fetched event. -/
theorem sync_calendar_events_idempotent_witness :
    ∃ rows1, sync_calendar_events 1 dt0 [] [ev9] = .ok rows1 ∧
      sync_calendar_events 1 dt0 rows1 [ev9] = .ok rows1 ∧
      ∀ eid ∈ [ev9].filterMap eventExternalId, countKey 1 eid rows1 = 1 :=
  sync_calendar_events_idempotent 1 dt0 [] [ev9]
    (fun u eid => by simp [countKey]) (by decide)
